import Mathlib

/-!
Shallow embedding of the native-activity engine (`app/src/main/cpp/main.cpp`):
the `Engine` context record, the EGL surface/context manager (`initDisplay`,
`termDisplay`, `drawFrame`), the input router (`onInputEvent`), the focus and
save-state handlers, the per-tick animation step (`animate`), and the
`android_main` event loop, together with proofs of the specified lifecycle,
invariant and round-trip properties.

The C `float` angle is modelled as a rational number; EGL handles are
modelled by their validity (a handle equal to `EGL_NO_*` is invalid); the
EGL backend (available configurations, success of `eglMakeCurrent`, queried
surface geometry) is an explicit oracle `EGLHost`.  A "draw call" counts one
invocation of `Engine::drawFrame` (the spec's `present`, which internally
no-ops when the target is invalid); a "release" counts one invocation of
`Engine::termDisplay`.
-/

namespace NativeActivity

/-- The persisted engine state (`SavedState` in the source): the animation
angle and the last pointer coordinates. -/
structure SavedState where
  angle : Rat
  x : Int
  y : Int
  deriving DecidableEq

/-- The engine context (`Engine::Context`).  `display`, `surface`, `context`
record validity of the EGL handles (`false` models `EGL_NO_DISPLAY` /
`EGL_NO_SURFACE` / `EGL_NO_CONTEXT`, the all-zero state left by `memset`).
`hasSensor` models `accelerometerSensor != nullptr`; `sensorEnabled` and
`eventRateUs` model the observable state of the sensor subscription (whether
delivery is enabled, and the last delivery period requested in
microseconds, `none` if never requested). -/
structure EngineCtx where
  hasSensor : Bool
  sensorEnabled : Bool
  eventRateUs : Option Int
  animating : Bool
  display : Bool
  surface : Bool
  context : Bool
  width : Int
  height : Int
  state : SavedState
  deriving DecidableEq

/-- The slice of `struct android_app` the engine reads and writes: whether a
window handle is present, the host-held saved-state buffer, and the
destroy-requested flag. -/
structure App where
  window : Bool
  savedState : Option SavedState
  destroyRequested : Bool
  deriving DecidableEq

/-- `Engine::isAnimating`. -/
def isAnimating (ctx : EngineCtx) : Bool := ctx.animating

/-- Attributes of one EGL configuration as read back by
`eglGetConfigAttrib` in `Engine::initDisplay`. -/
structure EGLConfigAttribs where
  red : Int
  green : Int
  blue : Int
  depth : Int
  deriving DecidableEq

/-- Oracle for the EGL backend: the configuration list returned by
`eglChooseConfig`, whether `eglMakeCurrent` succeeds, and the surface
geometry returned by `eglQuerySurface`. -/
structure EGLHost where
  configs : List EGLConfigAttribs
  makeCurrentOk : Bool
  surfaceWidth : Int
  surfaceHeight : Int
  deriving DecidableEq

/-- The two failure modes of `Engine::initDisplay` (both return `-1` in the
source): no usable configuration, or `eglMakeCurrent` failing. -/
inductive InitDisplayError where
  | configError
  | bindError
  deriving DecidableEq

/-- The configuration selection loop of `Engine::initDisplay`: the first
configuration with red=8, green=8, blue=8 and depth=0, else the first
configuration returned by the backend; `none` when no configuration
exists (the `config == nullptr` guard). -/
def chooseConfig (configs : List EGLConfigAttribs) : Option EGLConfigAttribs :=
  match configs.find? (fun c =>
      c.red == 8 && c.green == 8 && c.blue == 8 && c.depth == 0) with
  | some c => some c
  | none => configs.head?

/-- `Engine::initDisplay`.  On failure (`some` error, the source's `-1`
return) the context is returned unchanged: the field assignments at the end
of the routine are only reached on success, where the three handles, the
queried geometry and `state.angle = 0` are written. -/
def initDisplay (host : EGLHost) (ctx : EngineCtx) :
    Option InitDisplayError × EngineCtx :=
  match chooseConfig host.configs with
  | none => (some InitDisplayError.configError, ctx)
  | some _ =>
    if host.makeCurrentOk then
      (none, { ctx with
        display := true
        context := true
        surface := true
        width := host.surfaceWidth
        height := host.surfaceHeight
        state := { ctx.state with angle := 0 } })
    else
      (some InitDisplayError.bindError, ctx)

/-- `Engine::termDisplay`: unconditionally clears `animating` and resets the
three handles to the invalid state (the EGL destroy calls themselves are
backend side effects guarded by the validity checks). -/
def termDisplay (ctx : EngineCtx) : EngineCtx :=
  { ctx with
    animating := false
    display := false
    context := false
    surface := false }

/-- `Engine::drawFrame`: number of buffer swaps performed by one invocation
(0 when `ctx.display` is invalid — the early `return` — else 1). -/
def drawFrame (ctx : EngineCtx) : Nat :=
  if ctx.display then 1 else 0

/-- A raw input event as classified by `AInputEvent_getType`: a
motion-class event carrying the primary pointer position, or anything
else. -/
inductive InputEvent where
  | motion (x y : Int)
  | other
  deriving DecidableEq

/-- `Engine::onInputEvent`: a motion event sets `animating`, records the
pointer position and is consumed (returns 1); every other event returns 0
and changes nothing. -/
def onInputEvent (ev : InputEvent) (ctx : EngineCtx) : Int × EngineCtx :=
  match ev with
  | InputEvent.motion x y =>
      (1, { ctx with
        animating := true
        state := { ctx.state with x := x, y := y } })
  | InputEvent.other => (0, ctx)

/-- `Engine::onSaveState`: copies the current `SavedState` verbatim into a
freshly allocated host-visible buffer. -/
def onSaveState (ctx : EngineCtx) (app : App) : App :=
  { app with savedState := some ctx.state }

/-- `Engine::init`: zeroes the context (`memset`), looks up the default
accelerometer (`hs` records whether one is present) and, when the host
handed back a saved-state buffer, restores `SavedState` from it. -/
def Engine.init (hs : Bool) (app : App) : EngineCtx :=
  let base : EngineCtx := {
    hasSensor := hs
    sensorEnabled := false
    eventRateUs := none
    animating := false
    display := false
    surface := false
    context := false
    width := 0
    height := 0
    state := { angle := 0, x := 0, y := 0 } }
  match app.savedState with
  | some s => { base with state := s }
  | none => base

/-- `Engine::onInitWindow`: when a window handle is present, runs
`initDisplay` (its return value is ignored by the source) and then invokes
`drawFrame` once; otherwise does nothing.  The second component counts
`drawFrame` invocations. -/
def onInitWindow (host : EGLHost) (app : App) (ctx : EngineCtx) :
    EngineCtx × Nat :=
  if app.window then ((initDisplay host ctx).2, 1) else (ctx, 0)

/-- The delivery period `Engine::onFocus` passes to
`ASensorEventQueue_setEventRate`, in microseconds: `(1000L / 60) * 1000`. -/
def eventRateRequestUs : Int := (1000 / 60) * 1000

/-- `Engine::onFocus`.  Gaining focus enables the sensor subscription (if a
sensor is present) and requests the `eventRateRequestUs` delivery period;
losing focus disables the subscription (if present), clears `animating` and
invokes `drawFrame` once.  The second component counts `drawFrame`
invocations. -/
def onFocus (gained : Bool) (ctx : EngineCtx) : EngineCtx × Nat :=
  if gained then
    if ctx.hasSensor then
      ({ ctx with
          sensorEnabled := true
          eventRateUs := some eventRateRequestUs }, 0)
    else (ctx, 0)
  else
    if ctx.hasSensor then
      ({ ctx with sensorEnabled := false, animating := false }, 1)
    else ({ ctx with animating := false }, 1)

/-- `Engine::processSensorEvents`: drains and logs pending samples; no
engine state changes. -/
def processSensorEvents (ctx : EngineCtx) : EngineCtx := ctx

/-- `Engine::animate`: when `animating`, advances the angle by the fixed
per-frame increment `0.01`, wrapping to `0` when the result exceeds `1`,
and invokes `drawFrame` once; otherwise does nothing.  The second component
counts `drawFrame` invocations. -/
def animate (ctx : EngineCtx) : EngineCtx × Nat :=
  if ctx.animating then
    let a := ctx.state.angle + 1 / 100
    let a2 := if 1 < a then 0 else a
    ({ ctx with state := { ctx.state with angle := a2 } }, 1)
  else (ctx, 0)

/-- A host lifecycle command (`APP_CMD_*`), as dispatched by the
`onAppCmd` handler in `android_main`. -/
inductive Cmd where
  | saveState
  | initWindow
  | termWindow
  | gainedFocus
  | lostFocus
  | ignored
  deriving DecidableEq

/-- One event delivered by a poll pass of the looper: a lifecycle command, a
raw input event, sensor-channel readiness (`LOOPER_ID_USER`), or the host
setting the destroy-requested flag. -/
inductive Event where
  | cmd (c : Cmd)
  | input (ev : InputEvent)
  | sensor
  | destroy
  deriving DecidableEq

/-- Whether an event is a motion-class input event. -/
def Event.isMotion : Event → Bool
  | Event.input (InputEvent.motion _ _) => true
  | _ => false

/-- The combined app/engine state threaded through the event loop. -/
structure LoopState where
  app : App
  ctx : EngineCtx
  deriving DecidableEq

/-- The initial loop state of `android_main`: the host-provided `app`
record plus the freshly initialised engine. -/
def initState (hs : Bool) (app : App) : LoopState :=
  { app := app, ctx := Engine.init hs app }

/-- Result of dispatching one event: the new state, the number of
`drawFrame` invocations and the number of `termDisplay` invocations. -/
structure DispatchOut where
  st : LoopState
  drawCalls : Nat
  releases : Nat
  deriving DecidableEq

/-- The `onAppCmd` switch of `android_main`. -/
def handleCmd (host : EGLHost) (c : Cmd) (s : LoopState) : DispatchOut :=
  match c with
  | Cmd.saveState =>
      { st := { s with app := onSaveState s.ctx s.app }, drawCalls := 0, releases := 0 }
  | Cmd.initWindow =>
      let o := onInitWindow host s.app s.ctx
      { st := { s with ctx := o.1 }, drawCalls := o.2, releases := 0 }
  | Cmd.termWindow =>
      { st := { s with ctx := termDisplay s.ctx }, drawCalls := 0, releases := 1 }
  | Cmd.gainedFocus =>
      let o := onFocus true s.ctx
      { st := { s with ctx := o.1 }, drawCalls := o.2, releases := 0 }
  | Cmd.lostFocus =>
      let o := onFocus false s.ctx
      { st := { s with ctx := o.1 }, drawCalls := o.2, releases := 0 }
  | Cmd.ignored =>
      { st := s, drawCalls := 0, releases := 0 }

/-- Processing of one polled event inside the inner loop of `android_main`:
commands go through `handleCmd`, input events through `onInputEvent`,
sensor readiness through `processSensorEvents`, and a destroy notification
sets `destroyRequested`. -/
def dispatch (host : EGLHost) (e : Event) (s : LoopState) : DispatchOut :=
  match e with
  | Event.cmd c => handleCmd host c s
  | Event.input ev =>
      { st := { s with ctx := (onInputEvent ev s.ctx).2 }, drawCalls := 0, releases := 0 }
  | Event.sensor =>
      { st := { s with ctx := processSensorEvents s.ctx }, drawCalls := 0, releases := 0 }
  | Event.destroy =>
      { st := { s with app := { s.app with destroyRequested := true } },
        drawCalls := 0, releases := 0 }

/-- Result of one poll pass (the inner `ALooper_pollAll` loop): the new
state, the invocation counters, and whether the loop terminated via
`destroyRequested`. -/
structure PassOut where
  st : LoopState
  drawCalls : Nat
  releases : Nat
  terminated : Bool
  deriving DecidableEq

/-- The inner loop of `android_main`: processes each polled event in order;
after every event, checks `destroyRequested` and, when set, runs
`termDisplay` and terminates (remaining events are not processed). -/
def processEvents (host : EGLHost) : List Event → LoopState → PassOut
  | [], s => { st := s, drawCalls := 0, releases := 0, terminated := false }
  | e :: rest, s =>
    let d := dispatch host e s
    if d.st.app.destroyRequested then
      { st := { d.st with ctx := termDisplay d.st.ctx }
        drawCalls := d.drawCalls
        releases := d.releases + 1
        terminated := true }
    else
      let o := processEvents host rest d.st
      { st := o.st
        drawCalls := d.drawCalls + o.drawCalls
        releases := d.releases + o.releases
        terminated := o.terminated }

/-- One iteration of the outer `while (true)` loop: drain this pass's
events; if the loop did not terminate, run `animate`. -/
def loopIter (host : EGLHost) (evs : List Event) (s : LoopState) : PassOut :=
  let o := processEvents host evs s
  if o.terminated then o
  else
    let a := animate o.st.ctx
    { st := { o.st with ctx := a.1 }
      drawCalls := o.drawCalls + a.2
      releases := o.releases
      terminated := false }

/-- The timeout argument `android_main` passes to `ALooper_pollAll`:
`engine.isAnimating() ? 0 : -1`. -/
def pollTimeout (animating : Bool) : Int :=
  if animating then 0 else -1

/-- Result of running the event loop over a script: final state, invocation
counters, whether the loop terminated, and the trace of poll calls — for
each iteration the `animating` flag at poll time and the timeout passed to
`ALooper_pollAll`. -/
structure RunOut where
  st : LoopState
  drawCalls : Nat
  releases : Nat
  terminated : Bool
  polls : List (Bool × Int)
  deriving DecidableEq

/-- The event loop of `android_main` run over a script assigning to each
outer iteration the list of events the looper delivers in that pass.  Once
terminated (destroy), the remaining script is not processed. -/
def run (host : EGLHost) : List (List Event) → LoopState → RunOut
  | [], s => { st := s, drawCalls := 0, releases := 0, terminated := false, polls := [] }
  | evs :: rest, s =>
    let p : Bool × Int := (isAnimating s.ctx, pollTimeout (isAnimating s.ctx))
    let o := loopIter host evs s
    if o.terminated then
      { st := o.st, drawCalls := o.drawCalls, releases := o.releases,
        terminated := true, polls := [p] }
    else
      let r := run host rest o.st
      { st := r.st
        drawCalls := o.drawCalls + r.drawCalls
        releases := o.releases + r.releases
        terminated := r.terminated
        polls := p :: r.polls }

/-- All three render-target handles valid (ready to draw). -/
def allValid (ctx : EngineCtx) : Bool :=
  ctx.display && ctx.surface && ctx.context

/-- All three render-target handles invalid (torn down). -/
def allInvalid (ctx : EngineCtx) : Bool :=
  !ctx.display && !ctx.surface && !ctx.context

/-- The all-or-nothing render-target invariant: handles all valid or all
invalid. -/
def rtConsistent (ctx : EngineCtx) : Bool :=
  allValid ctx || allInvalid ctx

/-- A sample EGL host on which acquisition succeeds: one exactly-matching
configuration and a succeeding `eglMakeCurrent`. -/
def hostOk : EGLHost :=
  { configs := [{ red := 8, green := 8, blue := 8, depth := 0 }]
    makeCurrentOk := true
    surfaceWidth := 640
    surfaceHeight := 480 }

/-- A sample EGL host with no configurations (acquisition fails with
`configError`). -/
def hostNoConfig : EGLHost :=
  { configs := []
    makeCurrentOk := true
    surfaceWidth := 0
    surfaceHeight := 0 }

/-- A sample app record: window present, no saved state, destroy not
requested. -/
def appPlain : App :=
  { window := true, savedState := none, destroyRequested := false }

/-- A sample engine context with a sensor present and everything else in
the freshly-initialised state. -/
def ctxSensor : EngineCtx := Engine.init true appPlain

/-- A sample engine context in the fully-acquired, focused, animating
state. -/
def ctxLive : EngineCtx :=
  { hasSensor := true
    sensorEnabled := true
    eventRateUs := some eventRateRequestUs
    animating := true
    display := true
    surface := true
    context := true
    width := 640
    height := 480
    state := { angle := 1 / 2, x := 10, y := 20 } }

/-- A sample engine context whose persisted state is the spec's
save/restore scenario `x=120, y=340, angle=0.37`. -/
def ctx37 : EngineCtx :=
  { ctxLive with state := { angle := 37 / 100, x := 120, y := 340 } }

/-- A sample app record handing back the saved state of the spec's
save/restore scenario. -/
def app37 : App :=
  { window := true
    savedState := some { angle := 37 / 100, x := 120, y := 340 }
    destroyRequested := false }

/-- On any failure of `initDisplay` the engine context is returned
unchanged. -/
theorem initDisplay_fail (host : EGLHost) (ctx : EngineCtx) (e : InitDisplayError)
    (h : (initDisplay host ctx).1 = some e) :
    (initDisplay host ctx).2 = ctx := by
  unfold initDisplay at h ⊢
  cases hc : chooseConfig host.configs with
  | none => simp [hc]
  | some c =>
    simp only [hc] at h ⊢
    by_cases hm : host.makeCurrentOk
    · simp [hm] at h
    · simp [hm]

/-- A successful `initDisplay` leaves the angle at `0`. -/
theorem initDisplay_ok_angle (host : EGLHost) (ctx : EngineCtx)
    (h : (initDisplay host ctx).1 = none) :
    ((initDisplay host ctx).2).state.angle = 0 := by
  unfold initDisplay at h ⊢
  cases hc : chooseConfig host.configs with
  | none => simp [hc] at h
  | some c =>
    simp only [hc] at h ⊢
    by_cases hm : host.makeCurrentOk
    · simp [hm]
    · simp [hm] at h

/-- `initDisplay` never touches the pointer coordinates. -/
theorem initDisplay_xy (host : EGLHost) (ctx : EngineCtx) :
    ((initDisplay host ctx).2).state.x = ctx.state.x
    ∧ ((initDisplay host ctx).2).state.y = ctx.state.y := by
  unfold initDisplay
  cases chooseConfig host.configs with
  | none => simp
  | some c => by_cases hm : host.makeCurrentOk <;> simp [hm]

/-- `initDisplay` never touches the `animating` flag. -/
theorem initDisplay_animating (host : EGLHost) (ctx : EngineCtx) :
    ((initDisplay host ctx).2).animating = ctx.animating := by
  unfold initDisplay
  cases chooseConfig host.configs with
  | none => simp
  | some c => by_cases hm : host.makeCurrentOk <;> simp [hm]

/-- C1: after any operation on the render target — a fresh engine init, a
successful or failed acquisition, or a release — the display, surface and
context handles are all valid or all invalid; in particular a failed
acquisition leaves the engine context exactly unchanged. -/
theorem renderTarget_all_or_nothing :
    (∀ (hs : Bool) (app : App), allInvalid (Engine.init hs app) = true)
    ∧ (∀ (host : EGLHost) (ctx : EngineCtx),
        rtConsistent ctx = true → rtConsistent (initDisplay host ctx).2 = true)
    ∧ (∀ (host : EGLHost) (ctx : EngineCtx) (e : InitDisplayError),
        (initDisplay host ctx).1 = some e → (initDisplay host ctx).2 = ctx)
    ∧ (∀ ctx : EngineCtx, allInvalid (termDisplay ctx) = true) := by
  refine ⟨?_, ?_, ?_, ?_⟩
  · intro hs app
    cases h : app.savedState <;> simp [Engine.init, h, allInvalid]
  · intro host ctx h
    unfold initDisplay
    cases chooseConfig host.configs with
    | none => simpa using h
    | some c =>
      by_cases hm : host.makeCurrentOk
      · simp [hm, rtConsistent, allValid]
      · simpa [hm] using h
  · exact initDisplay_fail
  · intro ctx
    simp [termDisplay, allInvalid]

theorem renderTarget_all_or_nothing_witness :
    rtConsistent (initDisplay hostOk ctxLive).2 = true
    ∧ (initDisplay hostNoConfig ctxSensor).2 = ctxSensor :=
  ⟨renderTarget_all_or_nothing.2.1 hostOk ctxLive (by decide),
   renderTarget_all_or_nothing.2.2.1 hostNoConfig ctxSensor
     InitDisplayError.configError (by decide)⟩

/-- C2: release (`termDisplay`) is idempotent — on an already-released or
never-acquired target it is a no-op producing no error — and after any
release the target is all-invalid and `animating` is cleared. -/
theorem termDisplay_idempotent :
    (∀ ctx : EngineCtx, termDisplay (termDisplay ctx) = termDisplay ctx)
    ∧ (∀ ctx : EngineCtx,
        allInvalid (termDisplay ctx) = true ∧ (termDisplay ctx).animating = false)
    ∧ (∀ ctx : EngineCtx,
        allInvalid ctx = true → ctx.animating = false → termDisplay ctx = ctx) := by
  refine ⟨?_, ?_, ?_⟩
  · intro ctx; rfl
  · intro ctx
    exact ⟨by simp [termDisplay, allInvalid], rfl⟩
  · intro ctx h1 h2
    simp [allInvalid, Bool.and_eq_true, Bool.not_eq_true'] at h1
    cases ctx
    simp_all [termDisplay]

theorem termDisplay_idempotent_witness :
    termDisplay ctxSensor = ctxSensor :=
  termDisplay_idempotent.2.2 ctxSensor (by decide) (by decide)

/-- C7: `onSaveState` writes a buffer identical to the current persisted
state, and a new engine initialised with that buffer restores `x`, `y` and
`angle` exactly; in particular the `x=120, y=340, angle=0.37` scenario
round-trips. -/
theorem saveState_roundTrip :
    ∀ (ctx : EngineCtx) (app : App) (hs : Bool),
      (onSaveState ctx app).savedState = some ctx.state
      ∧ (Engine.init hs (onSaveState ctx app)).state = ctx.state
      ∧ (ctx.state = { angle := 37 / 100, x := 120, y := 340 } →
          (Engine.init hs (onSaveState ctx app)).state.x = 120
          ∧ (Engine.init hs (onSaveState ctx app)).state.y = 340
          ∧ (Engine.init hs (onSaveState ctx app)).state.angle = 37 / 100) := by
  intro ctx app hs
  refine ⟨rfl, ?_, ?_⟩
  · simp [Engine.init, onSaveState]
  · intro h
    simp [Engine.init, onSaveState, h]

theorem saveState_roundTrip_witness :
    (Engine.init true (onSaveState ctx37 appPlain)).state.x = 120
    ∧ (Engine.init true (onSaveState ctx37 appPlain)).state.y = 340
    ∧ (Engine.init true (onSaveState ctx37 appPlain)).state.angle = 37 / 100 :=
  (saveState_roundTrip ctx37 appPlain true).2.2 rfl

/-- C8: every successful acquisition resets the persisted angle to `0`
regardless of its prior value; hence a save/restore cycle that recreates
the window (restore `angle=0.37`, then `InitWindow` with a window present
and a succeeding backend) ends with `angle = 0`, losing the saved angle. -/
theorem acquire_resets_angle :
    (∀ (host : EGLHost) (ctx : EngineCtx),
        (initDisplay host ctx).1 = none →
        ((initDisplay host ctx).2).state.angle = 0)
    ∧ (∀ (hs : Bool) (app : App) (host : EGLHost),
        app.window = true →
        app.savedState = some { angle := 37 / 100, x := 120, y := 340 } →
        (initDisplay host (initState hs app).ctx).1 = none →
        (initState hs app).ctx.state.angle = 37 / 100
        ∧ (dispatch host (Event.cmd Cmd.initWindow)
            (initState hs app)).st.ctx.state.angle = 0) := by
  constructor
  · exact initDisplay_ok_angle
  · intro hs app host hw hsv hok
    constructor
    · simp [initState, Engine.init, hsv]
    · simp only [dispatch, handleCmd, onInitWindow, initState, hw, if_pos]
      exact initDisplay_ok_angle host (initState hs app).ctx hok

theorem acquire_resets_angle_witness :
    ((initDisplay hostOk ctxLive).2).state.angle = 0
    ∧ ((initState true app37).ctx.state.angle = 37 / 100
       ∧ (dispatch hostOk (Event.cmd Cmd.initWindow)
           (initState true app37)).st.ctx.state.angle = 0) :=
  ⟨acquire_resets_angle.1 hostOk ctxLive (by decide),
   acquire_resets_angle.2 true app37 hostOk (by decide) rfl (by decide)⟩

/-- C10: release (`termDisplay`) changes only the three handles and the
`animating` flag — the persisted state (angle, x, y), the cached
width/height and the sensor subscription are untouched — so pointer
coordinates recorded before a `TermWindow` survive into a subsequent
`InitWindow`. -/
theorem termDisplay_frame_effect :
    ∀ ctx : EngineCtx,
      (termDisplay ctx).state = ctx.state
      ∧ (termDisplay ctx).width = ctx.width
      ∧ (termDisplay ctx).height = ctx.height
      ∧ (termDisplay ctx).hasSensor = ctx.hasSensor
      ∧ (termDisplay ctx).sensorEnabled = ctx.sensorEnabled
      ∧ (termDisplay ctx).eventRateUs = ctx.eventRateUs
      ∧ (∀ (host : EGLHost) (app : App),
          ((dispatch host (Event.cmd Cmd.initWindow)
              (dispatch host (Event.cmd Cmd.termWindow)
                { app := app, ctx := ctx }).st).st.ctx.state.x = ctx.state.x)
          ∧ ((dispatch host (Event.cmd Cmd.initWindow)
              (dispatch host (Event.cmd Cmd.termWindow)
                { app := app, ctx := ctx }).st).st.ctx.state.y = ctx.state.y)) := by
  intro ctx
  refine ⟨rfl, rfl, rfl, rfl, rfl, rfl, ?_⟩
  intro host app
  by_cases hw : app.window
  · simp only [dispatch, handleCmd, onInitWindow, hw, if_pos]
    exact ⟨
      ((initDisplay_xy host (termDisplay ctx)).1),
      ((initDisplay_xy host (termDisplay ctx)).2)⟩
  · simp [dispatch, handleCmd, onInitWindow, hw, termDisplay]

/-- Dispatching any non-motion event never raises the `animating` flag. -/
theorem dispatch_animating_false (host : EGLHost) (e : Event) (s : LoopState)
    (hm : e.isMotion = false) (h : s.ctx.animating = false) :
    (dispatch host e s).st.ctx.animating = false := by
  cases e with
  | cmd c =>
    cases c with
    | saveState => simpa [dispatch, handleCmd] using h
    | initWindow =>
      simp only [dispatch, handleCmd, onInitWindow]
      by_cases hw : s.app.window <;> simp [hw, initDisplay_animating, h]
    | termWindow => simp [dispatch, handleCmd, termDisplay]
    | gainedFocus =>
      simp only [dispatch, handleCmd, onFocus]
      by_cases hs : s.ctx.hasSensor <;> simp [hs, h]
    | lostFocus =>
      simp only [dispatch, handleCmd, onFocus]
      by_cases hs : s.ctx.hasSensor <;> simp [hs]
    | ignored => simpa [dispatch, handleCmd] using h
  | input ev =>
    cases ev with
    | motion x y => simp [Event.isMotion] at hm
    | other => simpa [dispatch, onInputEvent] using h
  | sensor => simpa [dispatch, processSensorEvents] using h
  | destroy => simpa [dispatch] using h

/-- A poll pass containing no motion event never raises the `animating`
flag. -/
theorem processEvents_animating_false (host : EGLHost) :
    ∀ (evs : List Event) (s : LoopState),
      (evs.all fun e => !e.isMotion) = true → s.ctx.animating = false →
      (processEvents host evs s).st.ctx.animating = false := by
  intro evs
  induction evs with
  | nil => intro s _ h; simpa [processEvents] using h
  | cons e rest ih =>
    intro s hall h
    simp only [List.all_cons, Bool.and_eq_true, Bool.not_eq_true'] at hall
    simp only [processEvents]
    by_cases hd : (dispatch host e s).st.app.destroyRequested
    · simp [hd, termDisplay]
    · simp only [hd, Bool.false_eq_true, if_false]
      exact ih _ hall.2 (dispatch_animating_false host e s hall.1 h)

/-- A loop iteration whose events contain no motion event never raises the
`animating` flag. -/
theorem loopIter_animating_false (host : EGLHost) (evs : List Event) (s : LoopState)
    (hall : (evs.all fun e => !e.isMotion) = true) (h : s.ctx.animating = false) :
    (loopIter host evs s).st.ctx.animating = false := by
  have hp := processEvents_animating_false host evs s hall h
  simp only [loopIter]
  by_cases ht : (processEvents host evs s).terminated
  · simpa [ht] using hp
  · simp [ht, animate, hp]

/-- A run whose script contains no motion event never raises the
`animating` flag. -/
theorem run_animating_false (host : EGLHost) :
    ∀ (script : List (List Event)) (s : LoopState),
      (script.all fun evs => evs.all fun e => !e.isMotion) = true →
      s.ctx.animating = false →
      (run host script s).st.ctx.animating = false := by
  intro script
  induction script with
  | nil => intro s _ h; simpa [run] using h
  | cons evs rest ih =>
    intro s hall h
    simp only [List.all_cons, Bool.and_eq_true] at hall
    have hl := loopIter_animating_false host evs s hall.1 h
    simp only [run]
    by_cases ht : (loopIter host evs s).terminated
    · simpa [ht] using hl
    · simp only [ht, Bool.false_eq_true, if_false]
      exact ih _ hall.2 hl

/-- C3: every loop iteration issues its poll call with an indefinite
timeout (`-1`) when `animating` is false at poll time, and a zero timeout
when `animating` is true; the timeout recorded is always
`pollTimeout (isAnimating ctx)`. -/
theorem poll_policy :
    ∀ (host : EGLHost) (script : List (List Event)) (s : LoopState)
      (p : Bool × Int), p ∈ (run host script s).polls →
      p.2 = pollTimeout p.1
      ∧ (p.1 = true → p.2 = 0)
      ∧ (p.1 = false → p.2 = -1) := by
  intro host script
  induction script with
  | nil => intro s p hp; simp [run] at hp
  | cons evs rest ih =>
    intro s p hp
    simp only [run] at hp
    by_cases ht : (loopIter host evs s).terminated
    · simp [ht] at hp
      subst hp
      refine ⟨rfl, fun h => ?_, fun h => ?_⟩ <;> simp_all [pollTimeout]
    · simp [ht] at hp
      rcases hp with hp | hp
      · subst hp
        refine ⟨rfl, fun h => ?_, fun h => ?_⟩ <;> simp_all [pollTimeout]
      · exact ih _ p hp

theorem poll_policy_witness :
    ((false, (-1 : Int)).2 = pollTimeout (false, (-1 : Int)).1)
    ∧ ((false, (-1 : Int)).1 = true → (false, (-1 : Int)).2 = 0)
    ∧ ((false, (-1 : Int)).1 = false → (false, (-1 : Int)).2 = -1) :=
  poll_policy hostOk [[]] (initState false appPlain) (false, -1) (by decide)

/-- C4: `animating` starts false, stays false on every script containing no
motion-class input (routing a motion event is the sole false-to-true
transition of `dispatch`), and becomes false immediately on a `LoseFocus`
command and on release (`termDisplay`, the destroy path), regardless of
its prior value. -/
theorem animating_lifecycle :
    (∀ (hs : Bool) (app : App), (initState hs app).ctx.animating = false)
    ∧ (∀ (host : EGLHost) (script : List (List Event)) (hs : Bool) (app : App),
        (script.all fun evs => evs.all fun e => !e.isMotion) = true →
        (run host script (initState hs app)).st.ctx.animating = false)
    ∧ (∀ (host : EGLHost) (e : Event) (s : LoopState),
        s.ctx.animating = false →
        (dispatch host e s).st.ctx.animating = true →
        ∃ x y, e = Event.input (InputEvent.motion x y))
    ∧ (∀ (host : EGLHost) (s : LoopState),
        (dispatch host (Event.cmd Cmd.lostFocus) s).st.ctx.animating = false)
    ∧ (∀ ctx : EngineCtx, (termDisplay ctx).animating = false) := by
  refine ⟨?_, ?_, ?_, ?_, ?_⟩
  · intro hs app
    cases h : app.savedState <;> simp [initState, Engine.init, h]
  · intro host script hs app hall
    refine run_animating_false host script _ hall ?_
    cases h : app.savedState <;> simp [initState, Engine.init, h]
  · intro host e s h ht
    by_cases hm : e.isMotion
    · cases e with
      | cmd c => simp [Event.isMotion] at hm
      | input ev =>
        cases ev with
        | motion x y => exact ⟨x, y, rfl⟩
        | other => simp [Event.isMotion] at hm
      | sensor => simp [Event.isMotion] at hm
      | destroy => simp [Event.isMotion] at hm
    · exact absurd ht
        (by simp [dispatch_animating_false host e s (by simpa using hm) h])
  · intro host s
    simp only [dispatch, handleCmd, onFocus]
    by_cases hs : s.ctx.hasSensor <;> simp [hs]
  · intro ctx; rfl

theorem animating_lifecycle_witness :
    (run hostOk [[Event.cmd Cmd.gainedFocus]]
      (initState true appPlain)).st.ctx.animating = false
    ∧ (∃ x y, Event.input (InputEvent.motion 5 7)
        = Event.input (InputEvent.motion x y)) :=
  ⟨animating_lifecycle.2.1 hostOk [[Event.cmd Cmd.gainedFocus]] true appPlain
     (by decide),
   animating_lifecycle.2.2.1 hostOk (Event.input (InputEvent.motion 5 7))
     (initState true appPlain) (by decide) (by decide)⟩

/-- C5: while `animating` is true, one animation step advances the angle by
exactly the fixed increment `0.01`, wrapping past `1` back to `0` (so the
angle stays within `[0, 1]`), leaves the pointer state alone, and invokes
`drawFrame` exactly once; while `animating` is false the step changes
nothing and invokes no draw; and every non-terminating loop iteration ends
with exactly this animation step. -/
theorem animate_step :
    (∀ ctx : EngineCtx, ctx.animating = true →
        (animate ctx).2 = 1
        ∧ ((animate ctx).1).state.angle =
            (if 1 < ctx.state.angle + 1 / 100 then 0 else ctx.state.angle + 1 / 100)
        ∧ ((animate ctx).1).state.x = ctx.state.x
        ∧ ((animate ctx).1).state.y = ctx.state.y
        ∧ (0 ≤ ctx.state.angle → ctx.state.angle ≤ 1 →
            0 ≤ ((animate ctx).1).state.angle ∧ ((animate ctx).1).state.angle ≤ 1))
    ∧ (∀ ctx : EngineCtx, ctx.animating = false → animate ctx = (ctx, 0))
    ∧ (∀ (host : EGLHost) (evs : List Event) (s : LoopState),
        (processEvents host evs s).terminated = false →
        (loopIter host evs s).st.ctx = (animate (processEvents host evs s).st.ctx).1
        ∧ (loopIter host evs s).drawCalls
            = (processEvents host evs s).drawCalls
              + (animate (processEvents host evs s).st.ctx).2) := by
  refine ⟨?_, ?_, ?_⟩
  · intro ctx h
    refine ⟨by simp [animate, h], by simp [animate, h], by simp [animate, h],
      by simp [animate, h], ?_⟩
    intro h0 h1
    have hx : ((animate ctx).1).state.angle =
        (if 1 < ctx.state.angle + 1 / 100 then 0 else ctx.state.angle + 1 / 100) := by
      simp [animate, h]
    by_cases hw : 1 < ctx.state.angle + 1 / 100
    · rw [hx, if_pos hw]
      norm_num
    · rw [hx, if_neg hw]
      constructor
      · linarith
      · linarith [not_lt.mp hw]
  · intro ctx h
    simp [animate, h]
  · intro host evs s h
    simp [loopIter, h]

theorem animate_step_witness :
    ((animate ctxLive).2 = 1
     ∧ 0 ≤ ((animate ctxLive).1).state.angle
     ∧ ((animate ctxLive).1).state.angle ≤ 1)
    ∧ animate ctxSensor = (ctxSensor, 0)
    ∧ (loopIter hostOk [] { app := appPlain, ctx := ctxLive }).st.ctx
        = (animate (processEvents hostOk []
            { app := appPlain, ctx := ctxLive }).st.ctx).1 :=
  ⟨⟨(animate_step.1 ctxLive rfl).1,
    ((animate_step.1 ctxLive rfl).2.2.2.2 (by norm_num [ctxLive])
      (by norm_num [ctxLive])).1,
    ((animate_step.1 ctxLive rfl).2.2.2.2 (by norm_num [ctxLive])
      (by norm_num [ctxLive])).2⟩,
   animate_step.2.1 ctxSensor rfl,
   (animate_step.2.2 hostOk [] { app := appPlain, ctx := ctxLive } rfl).1⟩

/-- C6: a destroy notification, from any state (including acquired,
focused, animating), makes the loop perform exactly one release
(`termDisplay`), terminate, and produce no draw call from the destroy
notification onward — the rest of that pass and all later passes are never
processed. -/
theorem destroy_shutdown :
    ∀ (host : EGLHost) (s : LoopState) (rest : List Event)
      (script : List (List Event)),
      (run host ((Event.destroy :: rest) :: script) s).terminated = true
      ∧ (run host ((Event.destroy :: rest) :: script) s).releases = 1
      ∧ (run host ((Event.destroy :: rest) :: script) s).drawCalls = 0
      ∧ (run host ((Event.destroy :: rest) :: script) s).st.ctx = termDisplay s.ctx := by
  intro host s rest script
  simp [run, loopIter, processEvents, dispatch]

/-- C9 (counterexample): with a sensor present, gaining focus enables
delivery but requests the event period `eventRateRequestUs =
(1000/60)*1000 = 16000` microseconds — a delivery rate of 62.5 events per
second, not 60; the requested period also differs from the period of a
true 60 events/second rate under the same integer arithmetic. -/
theorem gainFocus_rate_counterexample :
    (onFocus true ctxSensor).1.sensorEnabled = true
    ∧ (onFocus true ctxSensor).1.eventRateUs = some eventRateRequestUs
    ∧ eventRateRequestUs = 16000
    ∧ (1000000 : Rat) / 16000 ≠ 60
    ∧ eventRateRequestUs ≠ 1000000 / 60 := by
  refine ⟨rfl, rfl, by decide, by norm_num, by decide⟩

/-- C9 (amended): `GainFocus` with a sensor present enables sensor delivery
and requests the event period `(1000/60)*1000 = 16000` microseconds (62.5
events per second, the code's truncated approximation of its intended
60 Hz); `GainFocus` with no sensor present is a no-op on the engine
context. -/
theorem gainFocus_spec :
    ∀ ctx : EngineCtx,
      (ctx.hasSensor = true →
        onFocus true ctx =
          ({ ctx with sensorEnabled := true, eventRateUs := some 16000 }, 0))
      ∧ (ctx.hasSensor = false → onFocus true ctx = (ctx, 0)) := by
  intro ctx
  constructor
  · intro h
    have h16 : eventRateRequestUs = (16000 : Int) := by decide
    simp [onFocus, h, h16]
  · intro h
    simp [onFocus, h]

theorem gainFocus_spec_witness :
    onFocus true ctxSensor =
      ({ ctxSensor with sensorEnabled := true, eventRateUs := some 16000 }, 0)
    ∧ onFocus true (Engine.init false appPlain) = (Engine.init false appPlain, 0) :=
  ⟨(gainFocus_spec ctxSensor).1 rfl, (gainFocus_spec (Engine.init false appPlain)).2 rfl⟩

end NativeActivity
